import Mathlib

set_option maxRecDepth 8000

namespace MirrorTest

/-! Shallow embedding of the mirror-test repository (src/config.py, src/core.py,
src/mirror-test.py).  Python strings are embedded as `List Char`; Python's
builtin string operations used by the code (`in`, `split`, `replace`, `lower`,
`startswith`, `strip` truthiness, `join`) are given executable Lean
counterparts below, each matching Python semantics on the inputs the code
feeds them. -/

/-- Character list of a Lean string literal; used to write Python string
literals from the source. -/
def strL (s : String) : List Char := s.data

/-- Embedded Python text. -/
abbrev Text := List Char

/-- Python `sub in s` substring test (left-to-right scan for an occurrence of
`sub` at any position). -/
def occursB (sub : Text) : Text → Bool
  | [] => sub.isPrefixOf []
  | c :: cs => sub.isPrefixOf (c :: cs) || occursB sub cs

/-- Python `s.lower()`; the phrases the classifier compares against are ASCII,
where `Char.toLower` agrees with Python. -/
def lowerL (s : Text) : Text := s.map Char.toLower

/-- Python `s.split('\n')`. -/
def splitNl : Text → List Text
  | [] => [[]]
  | c :: cs =>
    if c = '\n' then [] :: splitNl cs
    else
      match splitNl cs with
      | [] => [[c]]
      | l :: ls => (c :: l) :: ls

/-- Python `'\n'.join(lines)`. -/
def joinNl : List Text → Text
  | [] => []
  | [l] => l
  | l :: ls => l ++ '\n' :: joinNl ls

/-! Heuristic build-log classifier, translated from the stats endpoint of
`RequestHandler.do_GET` in src/mirror-test.py (lines 1561-1647): given the
text of a latest-log file it sorts the distribution into the failed or the
successful bucket. -/

inductive Outcome
  | SUCCESS
  | FAILURE
deriving DecidableEq

/-- The `success_indicators` list of src/mirror-test.py. -/
def success_indicators : List Text :=
  [strL "all repository tests passed",
   strL "build completed successfully",
   strL "exit code: 0",
   strL "return code: 0",
   strL "build finished successfully",
   strL "test completed successfully",
   strL "mirror test completed"]

/-- The `failure_indicators` list of src/mirror-test.py. -/
def failure_indicators : List Text :=
  [strL "exit code: 1",
   strL "exit code: 2",
   strL "exit code: 100",
   strL "exit code: 127",
   strL "return code: 1",
   strL "return code: 2",
   strL "return code: 100",
   strL "return code: 127",
   strL "build failed",
   strL "test failed",
   strL "mirror test failed",
   strL "fatal error",
   strL "critical error",
   strL "build error:",
   strL "test error:",
   strL "command failed with exit code",
   strL "podman build failed",
   strL "docker build failed",
   strL "exit status 100",
   strL "exit status 1",
   strL "exit status 2",
   strL "exit status 127",
   strL "error: building at step",
   strL "while running runtime: exit status",
   strL "error: failed to solve",
   strL "failed to build",
   strL "build process failed"]

/-- Python `is_failure = any(indicator in log_lower for indicator in failure_indicators)`. -/
def isFailureB (log_content : Text) : Bool :=
  failure_indicators.any fun p => occursB p (lowerL log_content)

/-- Python `is_success = any(indicator in log_lower for indicator in success_indicators)`. -/
def isSuccessB (log_content : Text) : Bool :=
  success_indicators.any fun p => occursB p (lowerL log_content)

/-- One line's container-error test from the unclear-log branch:
`'error: building at step' in line.lower() or ...`. -/
def containerErrLine (line : Text) : Bool :=
  occursB (strL "error: building at step") (lowerL line) ||
  occursB (strL "while running runtime: exit status") (lowerL line) ||
  occursB (strL "failed to solve") (lowerL line)

/-- Python `has_container_error = any(... for line in log_lines)`. -/
def hasContainerError (log_lines : List Text) : Bool :=
  log_lines.any containerErrLine

/-- Python `last_lines = log_lines[-15:] if len(log_lines) > 15 else log_lines`. -/
def lastLines (log_lines : List Text) : List Text :=
  if log_lines.length > 15 then log_lines.drop (log_lines.length - 15) else log_lines

/-- The completion patterns searched for in the trailing lines. -/
def completion_patterns : List Text :=
  [strL "build completed",
   strL "test completed",
   strL "finished successfully",
   strL "all tests passed",
   strL "mirror test completed",
   strL "repository test successful"]

/-- Python `has_completion = any(pattern in last_content for pattern in [...])`
where `last_content = '\n'.join(last_lines).lower()`. -/
def hasCompletion (log_lines : List Text) : Bool :=
  completion_patterns.any fun p => occursB p (lowerL (joinNl (lastLines log_lines)))

/-- The classifier of src/mirror-test.py lines 1561-1647: failure indicators
first, then success indicators, then the unclear-log analysis, defaulting to
FAILURE. -/
def classify (log_content : Text) : Outcome :=
  if isFailureB log_content then .FAILURE
  else if isSuccessB log_content then .SUCCESS
  else
    let log_lines := splitNl log_content
    if hasContainerError log_lines then .FAILURE
    else if hasCompletion log_lines then .SUCCESS
    else .FAILURE

/-- C3: a log text containing any failure phrase (after lower-casing) is
classified FAILURE, regardless of any success phrases also present. -/
theorem classify_failure_precedence (text : Text)
    (h : isFailureB text = true) :
    classify text = Outcome.FAILURE := by
  unfold classify
  rw [h]
  rfl

/-- C3 witness: a concrete log containing both a success phrase and a failure
phrase is classified FAILURE. -/
theorem classify_failure_precedence_witness :
    isFailureB (strL "All repository tests passed for x\nError: build failed") = true ∧
    classify (strL "All repository tests passed for x\nError: build failed") =
      Outcome.FAILURE :=
  ⟨by decide,
   classify_failure_precedence
     (strL "All repository tests passed for x\nError: build failed") (by decide)⟩

/-- C4: a log text with no failure phrase, no success phrase, no
container-level error marker and no trailing completion phrase is classified
FAILURE (fail-closed). -/
theorem classify_fail_closed (text : Text)
    (hf : isFailureB text = false)
    (hs : isSuccessB text = false)
    (hc : hasContainerError (splitNl text) = false)
    (hp : hasCompletion (splitNl text) = false) :
    classify text = Outcome.FAILURE := by
  unfold classify
  rw [hf, hs]
  simp only [hc, hp]
  rfl

/-- C4 witness: a concrete indeterminate log is classified FAILURE. -/
theorem classify_fail_closed_witness :
    isFailureB (strL "hello world\nnothing decisive here") = false ∧
    isSuccessB (strL "hello world\nnothing decisive here") = false ∧
    hasContainerError (splitNl (strL "hello world\nnothing decisive here")) = false ∧
    hasCompletion (splitNl (strL "hello world\nnothing decisive here")) = false ∧
    classify (strL "hello world\nnothing decisive here") = Outcome.FAILURE :=
  ⟨by decide, by decide, by decide, by decide,
   classify_fail_closed (strL "hello world\nnothing decisive here")
     (by decide) (by decide) (by decide) (by decide)⟩

/-! Variable substitution, translated from `ConfigManager.substitute_variables`
(src/config.py lines 99-117; the copy in src/mirror-test.py lines 171-190 is
the same multi-pass loop for string input). -/

/-- Python `s.replace(pat, repl)` scan: left-to-right, non-overlapping; the
`Nat` argument counts pattern characters still to be consumed after an
emitted replacement. -/
def replGo (pat repl : Text) : Text → Nat → Text
  | [], _ => []
  | _ :: cs, Nat.succ k => replGo pat repl cs k
  | c :: cs, 0 =>
    if pat.isPrefixOf (c :: cs) then repl ++ replGo pat repl cs (pat.length - 1)
    else c :: replGo pat repl cs 0

/-- Python `s.replace(pat, repl)`.  The source only ever calls it with the
non-empty patterns `"${" + name + "}"` and `'"'`, so the empty-pattern branch
(where Python would interleave `repl` everywhere) is never taken and is
modelled as the identity. -/
def pyReplace (s pat repl : Text) : Text :=
  if pat = [] then s else replGo pat repl s 0

/-- One full pass of the substitution loop: for every `(name, value)` pair of
the variable table, in table order, replace `${name}` by the value. -/
def substPass (vars : List (Text × Text)) (text : Text) : Text :=
  vars.foldl (fun t v => pyReplace t (strL "$\x7b" ++ v.1 ++ strL "\x7d") v.2) text

/-- The bounded pass loop: run `substPass` up to the fuel bound, stopping
early as soon as a pass changes nothing, and returning the last text
otherwise. -/
def substLoop (vars : List (Text × Text)) : Nat → Text → Text
  | 0, text => text
  | Nat.succ n, text =>
    let t := substPass vars text
    if t = text then text else substLoop vars n t

/-- `ConfigManager.substitute_variables` on string input: at most 10 passes
(`max_passes = 10`). -/
def substitute_variables (vars : List (Text × Text)) (text : Text) : Text :=
  substLoop vars 10 text

/-- If one substitution pass leaves a text unchanged, the whole bounded loop
leaves it unchanged. -/
theorem substLoop_fixed (vars : List (Text × Text)) (n : Nat) (y : Text)
    (h : substPass vars y = y) : substLoop vars (Nat.succ n) y = y := by
  unfold substLoop
  simp [h]

/-- C5 (amended): substitution is idempotent on every input whose first
substitution result is stable under one further pass — in particular whenever
the first call exits through its early no-change break.  Acyclic tables with
reference chains deeper than the 10-pass bound escape this hypothesis, and
idempotence genuinely fails for them (see the counterexample). -/
theorem substitute_variables_idempotent (vars : List (Text × Text)) (x : Text)
    (h : substPass vars (substitute_variables vars x) = substitute_variables vars x) :
    substitute_variables vars (substitute_variables vars x) =
      substitute_variables vars x := by
  unfold substitute_variables
  exact substLoop_fixed vars 9 (substitute_variables vars x) h

/-- C5 witness: a two-level nested table resolves and substitution is
idempotent on it. -/
theorem substitute_variables_idempotent_witness :
    substPass [(strL "MIRROR_HOST", strL "mirror.local"),
               (strL "MIRROR_BASE", strL "http://$\x7bMIRROR_HOST\x7d")]
        (substitute_variables
          [(strL "MIRROR_HOST", strL "mirror.local"),
           (strL "MIRROR_BASE", strL "http://$\x7bMIRROR_HOST\x7d")]
          (strL "deb $\x7bMIRROR_BASE\x7d/debian bookworm main")) =
      substitute_variables
        [(strL "MIRROR_HOST", strL "mirror.local"),
         (strL "MIRROR_BASE", strL "http://$\x7bMIRROR_HOST\x7d")]
        (strL "deb $\x7bMIRROR_BASE\x7d/debian bookworm main") ∧
    substitute_variables
        [(strL "MIRROR_HOST", strL "mirror.local"),
         (strL "MIRROR_BASE", strL "http://$\x7bMIRROR_HOST\x7d")]
        (substitute_variables
          [(strL "MIRROR_HOST", strL "mirror.local"),
           (strL "MIRROR_BASE", strL "http://$\x7bMIRROR_HOST\x7d")]
          (strL "deb $\x7bMIRROR_BASE\x7d/debian bookworm main")) =
      substitute_variables
        [(strL "MIRROR_HOST", strL "mirror.local"),
         (strL "MIRROR_BASE", strL "http://$\x7bMIRROR_HOST\x7d")]
        (strL "deb $\x7bMIRROR_BASE\x7d/debian bookworm main") :=
  ⟨by decide,
   substitute_variables_idempotent _ _ (by decide)⟩

/-- An acyclic reference chain of depth 12, listed deepest-first so that each
pass of the loop resolves exactly one level. -/
def chainVars : List (Text × Text) :=
  [(strL "A11", strL "end"),
   (strL "A10", strL "$\x7bA11\x7d"),
   (strL "A9", strL "$\x7bA10\x7d"),
   (strL "A8", strL "$\x7bA9\x7d"),
   (strL "A7", strL "$\x7bA8\x7d"),
   (strL "A6", strL "$\x7bA7\x7d"),
   (strL "A5", strL "$\x7bA6\x7d"),
   (strL "A4", strL "$\x7bA5\x7d"),
   (strL "A3", strL "$\x7bA4\x7d"),
   (strL "A2", strL "$\x7bA3\x7d"),
   (strL "A1", strL "$\x7bA2\x7d"),
   (strL "A0", strL "$\x7bA1\x7d")]

/-- C5 counterexample: `chainVars` is acyclic — with enough passes the text
fully resolves to a fixed point — yet the 10-pass `substitute_variables` is
not idempotent on `${A0}`: the first call stops at the residual `${A10}` and
a second call keeps substituting. -/
theorem substitute_variables_not_idempotent_cex :
    substPass chainVars (substLoop chainVars 20 (strL "$\x7bA0\x7d")) =
      substLoop chainVars 20 (strL "$\x7bA0\x7d") ∧
    substitute_variables chainVars
        (substitute_variables chainVars (strL "$\x7bA0\x7d")) ≠
      substitute_variables chainVars (strL "$\x7bA0\x7d") := by
  constructor
  · decide
  · decide

/-! Dynamic-typing guard of `ConfigManager.substitute_variables`
(src/config.py lines 99-102): `if not isinstance(text, str): return text`. -/

/-- Embedded Python values as they occur in the YAML config: strings,
integers, lists of strings, booleans, `None`. -/
inductive PyVal
  | str (s : Text)
  | intv (i : Int)
  | listv (l : List Text)
  | boolv (b : Bool)
  | none
deriving DecidableEq

/-- Python `isinstance(text, str)`. -/
def pyIsInstanceStr : PyVal → Bool
  | .str _ => true
  | _ => false

/-- `ConfigManager.substitute_variables` including its dynamic-typing guard:
non-string input is returned unchanged, string input goes through the
substitution loop. -/
def substitute_variables_config (vars : List (Text × Text)) : PyVal → PyVal
  | .str s => .str (substitute_variables vars s)
  | v => v

/-- C9: every non-string value is returned unchanged (and the operation is
total, so it never raises). -/
theorem substitute_variables_config_nonstr (vars : List (Text × Text)) (v : PyVal)
    (h : pyIsInstanceStr v = false) :
    substitute_variables_config vars v = v := by
  cases v <;> simp_all [pyIsInstanceStr, substitute_variables_config]

/-- C9 witness: an integer value passes through unchanged. -/
theorem substitute_variables_config_nonstr_witness :
    pyIsInstanceStr (PyVal.intv 3) = false ∧
    substitute_variables_config [(strL "A", strL "b")] (PyVal.intv 3) = PyVal.intv 3 :=
  ⟨by decide,
   substitute_variables_config_nonstr [(strL "A", strL "b")] (PyVal.intv 3) (by decide)⟩

/-! Dockerfile synthesizer, translated from `MirrorTester.generate_dockerfile`
(src/core.py lines 44-250; the copy in src/mirror-test.py lines 199-401
differs only in the test-command join strings, not in anything the claims
touch).  The embedded generation timestamp `datetime.now().isoformat()` is a
parameter `now`. -/

/-- A distribution entry of the config: every field optional or defaulted the
way `dist_config.get(...)` reads it. -/
structure DistConfig where
  baseImage : Option Text
  pull : Option Text
  packageManager : Option Text
  sources : List Text
  testCommands : Option (List Text)
deriving DecidableEq

/-- A `package-managers` entry: `update-command` defaults to the empty string
and `test-commands` to the empty list. -/
structure PMConfig where
  updateCommand : Text
  testCommands : List Text
deriving DecidableEq

/-- Python `dist_config.get('base-image', dist_config.get('pull', 'debian:12'))`. -/
def cfgBaseImage (cfg : DistConfig) : Text :=
  cfg.baseImage.getD (cfg.pull.getD (strL "debian:12"))

/-- Python `dist_config.get('package-manager', 'apt')`. -/
def cfgPM (cfg : DistConfig) : Text :=
  cfg.packageManager.getD (strL "apt")

/-- Python `config.get('package-managers', {}).get(package_manager, {})` with
its field defaults. -/
def cfgPMC (cfg : DistConfig) (pms : List (Text × PMConfig)) : PMConfig :=
  (List.lookup (cfgPM cfg) pms).getD ⟨[], []⟩

/-- Python `dist_config.get('test-commands', default_test_commands)`. -/
def cfgTestCmds (cfg : DistConfig) (pms : List (Text × PMConfig)) : List Text :=
  cfg.testCommands.getD (cfgPMC cfg pms).testCommands

/-- Python `'\n' in s`. -/
def containsNl (s : Text) : Bool := s.any (· = '\n')

/-- Python `s.replace('"', '\\"')`, the quote escaping applied to apt, yum/dnf
and apk source lines. -/
def escQ (s : Text) : Text := pyReplace s (strL "\"") (strL "\\\"")

/-- Python truthiness of `line.strip()`: the line has some non-whitespace
character.  `Char.isWhitespace` covers the ASCII whitespace that occurs in
repo stanzas. -/
def pyStripNonempty (line : Text) : Bool := line.any fun c => !c.isWhitespace

/-- The `FROM` line and the comment block (lines 62-64 of src/core.py). -/
def dfHeader (dist_name base_image now : Text) : Text :=
  strL "FROM " ++ base_image ++ strL "\n\n# Mirror test for " ++ dist_name ++
    strL "\n# Generated at " ++ now ++ strL "\n\n"

/-- The final validation marker (lines 247-248 of src/core.py). -/
def dfFinal (dist_name : Text) : Text :=
  strL "\n# Final validation\nRUN echo \x27All repository tests passed for " ++
    dist_name ++ strL "\x27\n"

/-- The update stage shared by all branches: the profile's update command if
non-empty (Python string truthiness), else the branch's default. -/
def updateBlock (update_command defaultCmd : Text) : Text :=
  if update_command ≠ [] then
    strL "# Update package lists\nRUN " ++ update_command ++ strL "\n\n"
  else
    strL "# Update package lists\nRUN " ++ defaultCmd ++ strL "\n\n"

/-- The enumerated test-command loop: a continuation indent before every
command except the first, each command substituted and chained with
`&& \`, then the closing success echo line. -/
def testCmdChainGo (subV : Text → Text) (contInd endLine : Text) :
    List Text → Bool → Text
  | [], _ => endLine
  | c :: cs, first =>
    (if first then [] else contInd) ++ subV c ++ strL " && \\\n" ++
      testCmdChainGo subV contInd endLine cs false

/-- The `# Run test commands` block. -/
def testCmdChain (subV : Text → Text) (contInd endLine : Text)
    (cmds : List Text) : Text :=
  strL "# Run test commands\nRUN " ++ testCmdChainGo subV contInd endLine cmds true

/-- One apt source append command (line 77 of src/core.py). -/
def aptSourceLine (subV : Text → Text) (source : Text) : Text :=
  strL "    echo \"" ++ escQ (subV source) ++
    strL "\" >> /etc/apt/sources.list && \\\n"

/-- The apt branch (lines 66-102 of src/core.py). -/
def aptBody (subV : Text → Text) (sources : List Text)
    (update_command : Text) (dist_test_commands : List Text) : Text :=
  strL "# Configure repositories\nRUN rm -f /etc/apt/sources.list.d/* && \\\n    echo \x27Acquire::Languages \"none\";\x27 > /etc/apt/apt.conf.d/99translations && \\\n    > /etc/apt/sources.list && \\\n" ++
  (sources.map (aptSourceLine subV)).flatten ++
  strL "    cat /etc/apt/sources.list\n\n" ++
  updateBlock update_command (strL "apt-get update") ++
  (if dist_test_commands ≠ [] then
    testCmdChain subV (strL "     ")
      (strL "     echo \x27Repository test successful\x27\n") dist_test_commands
  else
    strL "# Basic repository test\nRUN apt-get install -y --no-install-recommends apt-utils && \\\n    echo \x27Repository test successful\x27\n")

/-- One yum/dnf repo-file append command (lines 125 and 129 of src/core.py). -/
def yumEchoLine (line : Text) : Text :=
  strL "    echo \"" ++ escQ line ++
    strL "\" >> /etc/yum.repos.d/mirror-test.repo && \\\n"

/-- The per-source part of the yum/dnf repository stage (lines 115-129 of
src/core.py): a source containing embedded newlines is split and each
non-empty line appended individually; a single-line source is appended
as-is. -/
def yumSourceCmds (subV : Text → Text) (source : Text) : Text :=
  let substituted_source := subV source
  if containsNl substituted_source then
    ((splitNl substituted_source).map fun line =>
      if pyStripNonempty line then yumEchoLine line else []).flatten
  else
    yumEchoLine substituted_source

/-- The update stage of the yum/dnf branch (lines 134-143 of src/core.py). -/
def yumUpdateBlock (package_manager update_command : Text) : Text :=
  updateBlock update_command
    (if package_manager = strL "dnf" then strL "dnf makecache" else strL "yum makecache")

/-- The test stage of the yum/dnf branch (lines 145-161 of src/core.py). -/
def yumTestBlock (package_manager : Text) (subV : Text → Text)
    (dist_test_commands : List Text) : Text :=
  if dist_test_commands ≠ [] then
    testCmdChain subV (strL "      ")
      (strL "    echo \x27Repository test successful\x27\n") dist_test_commands
  else
    strL "# Basic repository test\nRUN " ++
    (if package_manager = strL "dnf" then strL "dnf install -y dnf-utils"
     else strL "yum install -y yum-utils") ++
    strL " && \\\n    echo \x27Repository test successful\x27\n"

/-- The yum/dnf branch (lines 104-161 of src/core.py). -/
def yumBody (package_manager : Text) (subV : Text → Text) (sources : List Text)
    (update_command : Text) (dist_test_commands : List Text) : Text :=
  strL "# Configure repositories\nRUN rm -f /etc/yum.repos.d/* && \\\n    export releasever=$(rpm -q --qf \x27%\x7bVERSION\x7d\x27 $(rpm -q --whatprovides redhat-release)) && \\\n    export basearch=$(uname -m) && \\\n" ++
  (sources.map (yumSourceCmds subV)).flatten ++
  strL "    cat /etc/yum.repos.d/mirror-test.repo\n\n" ++
  yumUpdateBlock package_manager update_command ++
  yumTestBlock package_manager subV dist_test_commands

/-- The zypper branch (lines 163-203 of src/core.py); its multi-line and
single-line source cases both write `substituted_source + "\n"` into the
heredoc. -/
def zypperBody (subV : Text → Text) (sources : List Text)
    (update_command : Text) (dist_test_commands : List Text) : Text :=
  strL "# Configure repositories\nRUN rm -f /etc/zypp/repos.d/* && \\\n    cat > /etc/zypp/repos.d/mirror-test.repo << \x27EOF\x27\n" ++
  (sources.map fun source => subV source ++ strL "\n").flatten ++
  strL "EOF\n\n" ++
  updateBlock update_command (strL "zypper --non-interactive refresh") ++
  (if dist_test_commands ≠ [] then
    testCmdChain subV (strL "    ")
      (strL "    echo \x27Repository test successful\x27\n") dist_test_commands
  else
    strL "# Basic repository test\nRUN zypper --non-interactive install -y zypper && \\\n    echo \x27Repository test successful\x27\n")

/-- One apk source append command (line 214 of src/core.py). -/
def apkSourceLine (subV : Text → Text) (source : Text) : Text :=
  strL "    echo \"" ++ escQ (subV source) ++
    strL "\" >> /etc/apk/repositories && \\\n"

/-- The apk branch (lines 205-239 of src/core.py). -/
def apkBody (subV : Text → Text) (sources : List Text)
    (update_command : Text) (dist_test_commands : List Text) : Text :=
  strL "# Configure repositories\nRUN > /etc/apk/repositories && \\\n" ++
  (sources.map (apkSourceLine subV)).flatten ++
  strL "    cat /etc/apk/repositories\n\n" ++
  updateBlock update_command (strL "apk update") ++
  (if dist_test_commands ≠ [] then
    testCmdChain subV (strL "    ")
      (strL "    echo \x27Repository test successful\x27\n") dist_test_commands
  else
    strL "# Basic repository test\nRUN apk add --no-cache curl && \\\n    echo \x27Repository test successful\x27\n")

/-- The generic fallback for an unknown package-manager kind (lines 241-244
of src/core.py). -/
def unknownBody (package_manager : Text) : Text :=
  strL "# Unknown package manager: " ++ package_manager ++
    strL "\nRUN echo \x27Cannot test - unknown package manager\x27\n"

/-- The dispatch-by-package-manager body of the generated script. -/
def dfBody (cfg : DistConfig) (pms : List (Text × PMConfig))
    (vars : List (Text × Text)) : Text :=
  let package_manager := cfgPM cfg
  let update_command := (cfgPMC cfg pms).updateCommand
  let dist_test_commands := cfgTestCmds cfg pms
  let subV := substitute_variables vars
  if package_manager = strL "apt" then
    aptBody subV cfg.sources update_command dist_test_commands
  else if package_manager = strL "yum" ∨ package_manager = strL "dnf" then
    yumBody package_manager subV cfg.sources update_command dist_test_commands
  else if package_manager = strL "zypper" then
    zypperBody subV cfg.sources update_command dist_test_commands
  else if package_manager = strL "apk" then
    apkBody subV cfg.sources update_command dist_test_commands
  else
    unknownBody package_manager

/-- `MirrorTester.generate_dockerfile` for a present distribution config. -/
def generate_dockerfile (dist_name : Text) (cfg : DistConfig)
    (pms : List (Text × PMConfig)) (vars : List (Text × Text)) (now : Text) : Text :=
  dfHeader dist_name (cfgBaseImage cfg) now ++ dfBody cfg pms vars ++ dfFinal dist_name

/-! Supporting lemmas about occurrence search and line splitting. -/

theorem isPrefixOf_append_self (l t : List Char) : l.isPrefixOf (l ++ t) = true :=
  List.isPrefixOf_iff_prefix.mpr (List.prefix_append l t)

theorem isSuffixOf_append_self (l t : List Char) : l.isSuffixOf (t ++ l) = true :=
  List.isSuffixOf_iff_suffix.mpr (List.suffix_append t l)

theorem occursB_append_right (p a b : Text) (h : occursB p b = true) :
    occursB p (a ++ b) = true := by
  induction a with
  | nil => simpa using h
  | cons c cs ih => simp [occursB, ih]

theorem occursB_nil_sub (b : Text) : occursB [] b = true := by
  cases b <;> simp [occursB, List.isPrefixOf]

theorem occursB_prefix_self (p b : Text) : occursB p (p ++ b) = true := by
  cases p with
  | nil => exact occursB_nil_sub b
  | cons c cs =>
    rw [List.cons_append, occursB, ← List.cons_append, isPrefixOf_append_self]
    simp

theorem splitNl_ne_nil (s : Text) : splitNl s ≠ [] := by
  cases s with
  | nil => simp [splitNl]
  | cons c cs =>
    rw [splitNl]
    split
    · simp
    · split <;> simp

theorem splitNl_append_cons (a b : Text) :
    splitNl (a ++ '\n' :: b) = splitNl a ++ splitNl b := by
  induction a with
  | nil => simp [splitNl]
  | cons c cs ih =>
    obtain ⟨l, ls, h⟩ := List.exists_cons_of_ne_nil (splitNl_ne_nil cs)
    by_cases hc : c = '\n'
    · subst hc
      simp [splitNl, ih]
    · rw [List.cons_append, splitNl, if_neg hc, ih, h, splitNl, if_neg hc, h]
      simp

theorem splitNl_eq_single (a : Text) (h : ∀ c ∈ a, c ≠ '\n') : splitNl a = [a] := by
  induction a with
  | nil => simp [splitNl]
  | cons c cs ih =>
    have hc : c ≠ '\n' := h c (by simp)
    have ih' : splitNl cs = [cs] := ih fun x hx => h x (by simp [hx])
    simp [splitNl, if_neg hc, ih']

/-- C10: the generated script's first line is `FROM ` followed by the
`base-image` value, falling back to the legacy `pull` value and then to the
literal `debian:12`, for every distribution config whose chosen image
reference is a single line. -/
theorem generate_dockerfile_first_line (dist_name : Text) (cfg : DistConfig)
    (pms : List (Text × PMConfig)) (vars : List (Text × Text)) (now : Text)
    (h : containsNl (cfgBaseImage cfg) = false) :
    (splitNl (generate_dockerfile dist_name cfg pms vars now)).headD [] =
      strL "FROM " ++ cfgBaseImage cfg := by
  have hfree : ∀ c ∈ strL "FROM " ++ cfgBaseImage cfg, c ≠ '\n' := by
    intro c hc
    rcases List.mem_append.1 hc with h1 | h2
    · exact (by decide : ∀ x ∈ strL "FROM ", x ≠ '\n') c h1
    · simp only [containsNl, List.any_eq_false, decide_eq_true_eq] at h
      exact h c h2
  have hshape : generate_dockerfile dist_name cfg pms vars now =
      (strL "FROM " ++ cfgBaseImage cfg) ++ '\n' ::
        (strL "\n# Mirror test for " ++ dist_name ++ strL "\n# Generated at " ++
          now ++ strL "\n\n" ++ dfBody cfg pms vars ++ dfFinal dist_name) := by
    show dfHeader dist_name (cfgBaseImage cfg) now ++ _ ++ _ = _
    rw [dfHeader,
        show strL "\n\n# Mirror test for " = '\n' :: strL "\n# Mirror test for " from rfl]
    simp [List.append_assoc]
  rw [hshape, splitNl_append_cons, splitNl_eq_single _ hfree]
  simp

/-- C10 witness: a concrete config using the `base-image` key. -/
theorem generate_dockerfile_first_line_witness :
    containsNl (cfgBaseImage ⟨some (strL "alpine:3.19"), none, some (strL "apk"),
      [strL "http://mirror.local/alpine/v3.19/main"], none⟩) = false ∧
    (splitNl (generate_dockerfile (strL "alpine-test")
        ⟨some (strL "alpine:3.19"), none, some (strL "apk"),
          [strL "http://mirror.local/alpine/v3.19/main"], none⟩ [] []
        (strL "2024-01-01T00:00:00"))).headD [] =
      strL "FROM " ++ cfgBaseImage ⟨some (strL "alpine:3.19"), none, some (strL "apk"),
        [strL "http://mirror.local/alpine/v3.19/main"], none⟩ :=
  ⟨by decide,
   generate_dockerfile_first_line (strL "alpine-test")
     ⟨some (strL "alpine:3.19"), none, some (strL "apk"),
       [strL "http://mirror.local/alpine/v3.19/main"], none⟩ [] []
     (strL "2024-01-01T00:00:00") (by decide)⟩

/-- C7: for a package-manager kind outside apt, yum, dnf, zypper, apk the
synthesizer (a total function: it cannot raise) still returns a non-empty
script containing the literal marker `unknown package manager` and the final
validation marker naming the distribution. -/
theorem generate_dockerfile_unknown_pm (dist_name : Text) (cfg : DistConfig)
    (pms : List (Text × PMConfig)) (vars : List (Text × Text)) (now : Text)
    (h : cfgPM cfg ∉ [strL "apt", strL "yum", strL "dnf", strL "zypper", strL "apk"]) :
    generate_dockerfile dist_name cfg pms vars now ≠ [] ∧
    occursB (strL "unknown package manager")
      (generate_dockerfile dist_name cfg pms vars now) = true ∧
    occursB (strL "All repository tests passed for " ++ dist_name)
      (generate_dockerfile dist_name cfg pms vars now) = true := by
  have h1 : cfgPM cfg ≠ strL "apt" := fun e => h (by simp [e])
  have h2 : cfgPM cfg ≠ strL "yum" := fun e => h (by simp [e])
  have h3 : cfgPM cfg ≠ strL "dnf" := fun e => h (by simp [e])
  have h4 : cfgPM cfg ≠ strL "zypper" := fun e => h (by simp [e])
  have h5 : cfgPM cfg ≠ strL "apk" := fun e => h (by simp [e])
  have hbody : dfBody cfg pms vars = unknownBody (cfgPM cfg) := by
    rw [dfBody]
    simp only [if_neg h1, if_neg (not_or.mpr ⟨h2, h3⟩), if_neg h4, if_neg h5]
  refine ⟨?_, ?_, ?_⟩
  · rw [generate_dockerfile, dfHeader]
    apply List.append_ne_nil_of_left_ne_nil
    apply List.append_ne_nil_of_left_ne_nil
    apply List.append_ne_nil_of_left_ne_nil
    apply List.append_ne_nil_of_left_ne_nil
    apply List.append_ne_nil_of_left_ne_nil
    apply List.append_ne_nil_of_left_ne_nil
    apply List.append_ne_nil_of_left_ne_nil
    apply List.append_ne_nil_of_left_ne_nil
    decide
  · rw [generate_dockerfile, hbody, unknownBody,
        show strL "\nRUN echo \x27Cannot test - unknown package manager\x27\n"
          = strL "\nRUN echo \x27Cannot test - " ++ strL "unknown package manager" ++
            strL "\x27\n" from rfl]
    simp only [List.append_assoc]
    apply occursB_append_right
    apply occursB_append_right
    apply occursB_append_right
    apply occursB_append_right
    exact occursB_prefix_self _ _
  · rw [generate_dockerfile, dfFinal,
        show strL "\n# Final validation\nRUN echo \x27All repository tests passed for "
          = strL "\n# Final validation\nRUN echo \x27" ++
            strL "All repository tests passed for " from rfl]
    simp only [List.append_assoc]
    apply occursB_append_right
    apply occursB_append_right
    apply occursB_append_right
    rw [← List.append_assoc (strL "All repository tests passed for ")]
    exact occursB_prefix_self _ _

/-- C7 witness: a concrete config using the unrecognized kind `pacman`. -/
theorem generate_dockerfile_unknown_pm_witness :
    cfgPM ⟨some (strL "arch:latest"), none, some (strL "pacman"), [], none⟩ ∉
      [strL "apt", strL "yum", strL "dnf", strL "zypper", strL "apk"] ∧
    generate_dockerfile (strL "arch-test")
        ⟨some (strL "arch:latest"), none, some (strL "pacman"), [], none⟩ [] []
        (strL "2024-01-01T00:00:00") ≠ [] ∧
    occursB (strL "unknown package manager")
      (generate_dockerfile (strL "arch-test")
        ⟨some (strL "arch:latest"), none, some (strL "pacman"), [], none⟩ [] []
        (strL "2024-01-01T00:00:00")) = true ∧
    occursB (strL "All repository tests passed for " ++ strL "arch-test")
      (generate_dockerfile (strL "arch-test")
        ⟨some (strL "arch:latest"), none, some (strL "pacman"), [], none⟩ [] []
        (strL "2024-01-01T00:00:00")) = true :=
  ⟨by decide,
   (generate_dockerfile_unknown_pm (strL "arch-test")
     ⟨some (strL "arch:latest"), none, some (strL "pacman"), [], none⟩ [] []
     (strL "2024-01-01T00:00:00") (by decide)).1,
   (generate_dockerfile_unknown_pm (strL "arch-test")
     ⟨some (strL "arch:latest"), none, some (strL "pacman"), [], none⟩ [] []
     (strL "2024-01-01T00:00:00") (by decide)).2.1,
   (generate_dockerfile_unknown_pm (strL "arch-test")
     ⟨some (strL "arch:latest"), none, some (strL "pacman"), [], none⟩ [] []
     (strL "2024-01-01T00:00:00") (by decide)).2.2⟩

/-! Counting the repo-file append commands of the yum/dnf repository stage
(claim C6). -/

/-- One yum/dnf append command without its trailing newline. -/
def yumEchoCore (line : Text) : Text :=
  strL "    echo \"" ++ escQ line ++
    strL "\" >> /etc/yum.repos.d/mirror-test.repo && \\"

/-- A script line is a repo-file append command when it is an `echo` that
redirects into the yum repo file. -/
def isYumEchoLine (l : Text) : Bool :=
  (strL "    echo \"").isPrefixOf l &&
  (strL "\" >> /etc/yum.repos.d/mirror-test.repo && \\").isSuffixOf l

/-- Number of repo-file append commands among the lines of a text. -/
def countYumEcho (txt : Text) : Nat :=
  ((splitNl txt).filter isYumEchoLine).length

/-- The append count the claim predicts for one source line: one per
non-empty inner line for a multi-line source, one for a single-line
source. -/
def expectedAppends (subV : Text → Text) (source : Text) : Nat :=
  let s := subV source
  if containsNl s then ((splitNl s).filter pyStripNonempty).length else 1

theorem yumEchoLine_eq (line : Text) :
    yumEchoLine line = yumEchoCore line ++ ['\n'] := by
  rw [yumEchoLine, yumEchoCore,
      show strL "\" >> /etc/yum.repos.d/mirror-test.repo && \\\n" =
        strL "\" >> /etc/yum.repos.d/mirror-test.repo && \\" ++ ['\n'] from rfl]
  simp [List.append_assoc]

theorem countYumEcho_nil : countYumEcho [] = 0 := by decide

theorem countYumEcho_append_cons (a b : Text) :
    countYumEcho (a ++ '\n' :: b) = countYumEcho a + countYumEcho b := by
  rw [countYumEcho, splitNl_append_cons, List.filter_append, List.length_append]
  rfl

theorem countYumEcho_append (a b : Text) (ha : a.getLast? = some '\n') :
    countYumEcho (a ++ b) = countYumEcho a + countYumEcho b := by
  have hne : a ≠ [] := by rintro rfl; simp at ha
  have hl : a.getLast hne = '\n' := by
    rw [List.getLast?_eq_getLast a hne] at ha
    exact (Option.some_inj.1 ha).symm ▸ rfl
  have hd : a = a.dropLast ++ ['\n'] := by
    conv_lhs => rw [← List.dropLast_append_getLast hne]
    rw [hl]
  calc countYumEcho (a ++ b) = countYumEcho (a.dropLast ++ '\n' :: b) := by
        conv_lhs => rw [hd]
        rw [List.append_assoc, List.singleton_append]
    _ = countYumEcho a.dropLast + countYumEcho b := countYumEcho_append_cons _ _
    _ = countYumEcho a + countYumEcho b := by
        conv_rhs => rw [hd]
        rw [show a.dropLast ++ ['\n'] = a.dropLast ++ '\n' :: [] from rfl,
            countYumEcho_append_cons, countYumEcho_nil]
        omega

theorem mem_of_mem_replGo (pat repl : Text) (xs : Text) (k : Nat) (c : Char)
    (h : c ∈ replGo pat repl xs k) : c ∈ xs ∨ c ∈ repl := by
  induction xs generalizing k with
  | nil => simp [replGo] at h
  | cons x cs ih =>
    cases k with
    | succ k' =>
      simp only [replGo] at h
      rcases ih k' h with h1 | h2
      · exact Or.inl (List.mem_cons_of_mem x h1)
      · exact Or.inr h2
    | zero =>
      simp only [replGo] at h
      split at h
      · rcases List.mem_append.1 h with h1 | h2
        · exact Or.inr h1
        · rcases ih _ h2 with h1 | h2
          · exact Or.inl (List.mem_cons_of_mem x h1)
          · exact Or.inr h2
      · rcases List.mem_cons.1 h with h1 | h2
        · exact Or.inl (by simp [h1])
        · rcases ih 0 h2 with h1 | h2
          · exact Or.inl (List.mem_cons_of_mem x h1)
          · exact Or.inr h2

theorem nlfree_of_not_containsNl (s : Text) (h : containsNl s = false) :
    ∀ c ∈ s, c ≠ '\n' := by
  simp only [containsNl, List.any_eq_false, decide_eq_true_eq] at h
  exact h

theorem nlfree_escQ (l : Text) (h : ∀ c ∈ l, c ≠ '\n') :
    ∀ c ∈ escQ l, c ≠ '\n' := by
  intro c hc
  rw [escQ, pyReplace, if_neg (by decide)] at hc
  rcases mem_of_mem_replGo _ _ _ _ _ hc with h1 | h2
  · exact h c h1
  · exact (by decide : ∀ x ∈ strL "\\\"", x ≠ '\n') c h2

theorem nlfree_yumEchoCore (l : Text) (h : ∀ c ∈ l, c ≠ '\n') :
    ∀ c ∈ yumEchoCore l, c ≠ '\n' := by
  intro c hc
  rw [yumEchoCore] at hc
  rcases List.mem_append.1 hc with h1 | h2
  · rcases List.mem_append.1 h1 with h3 | h4
    · exact (by decide : ∀ x ∈ strL "    echo \"", x ≠ '\n') c h3
    · exact nlfree_escQ l h c h4
  · exact (by decide :
      ∀ x ∈ strL "\" >> /etc/yum.repos.d/mirror-test.repo && \\", x ≠ '\n') c h2

theorem isYumEchoLine_core (l : Text) : isYumEchoLine (yumEchoCore l) = true := by
  rw [isYumEchoLine, yumEchoCore, List.append_assoc, isPrefixOf_append_self,
      ← List.append_assoc, isSuffixOf_append_self]
  rfl

theorem countYumEcho_echoLine (l rest : Text) (h : ∀ c ∈ l, c ≠ '\n') :
    countYumEcho (yumEchoLine l ++ rest) = 1 + countYumEcho rest := by
  rw [yumEchoLine_eq, List.append_assoc, List.singleton_append,
      countYumEcho_append_cons]
  have hcore : countYumEcho (yumEchoCore l) = 1 := by
    rw [countYumEcho, splitNl_eq_single _ (nlfree_yumEchoCore l h),
        List.filter_cons]
    simp [isYumEchoLine_core]
  rw [hcore]

theorem splitNl_cons_of_ne (c : Char) (cs : Text) (hc : ¬c = '\n')
    (m : Text) (ms : List Text) (hm : splitNl cs = m :: ms) :
    splitNl (c :: cs) = (c :: m) :: ms := by
  rw [splitNl, if_neg hc, hm]

theorem splitNl_mem_nlfree (s : Text) : ∀ l ∈ splitNl s, ∀ c ∈ l, c ≠ '\n' := by
  induction s with
  | nil =>
    intro l hl
    rw [splitNl] at hl
    rcases List.mem_singleton.1 hl with rfl
    simp
  | cons c cs ih =>
    intro l hl
    obtain ⟨m, ms, hm⟩ := List.exists_cons_of_ne_nil (splitNl_ne_nil cs)
    by_cases hc : c = '\n'
    · subst hc
      rw [splitNl, if_pos rfl] at hl
      rcases List.mem_cons.1 hl with h1 | h2
      · subst h1; simp
      · exact ih l h2
    · rw [splitNl_cons_of_ne c cs hc m ms hm] at hl
      rcases List.mem_cons.1 hl with h1 | h2
      · subst h1
        intro x hx
        rcases List.mem_cons.1 hx with h3 | h4
        · subst h3; exact hc
        · exact ih m (by rw [hm]; simp) x h4
      · exact ih l (by rw [hm]; simp [h2])

theorem countYumEcho_flatten (lines : List Text) (rest : Text)
    (h : ∀ l ∈ lines, ∀ c ∈ l, c ≠ '\n') :
    countYumEcho
        (((lines.map fun line =>
            if pyStripNonempty line then yumEchoLine line else []).flatten) ++ rest) =
      (lines.filter pyStripNonempty).length + countYumEcho rest := by
  induction lines with
  | nil => simp
  | cons l ls ih =>
    rw [List.map_cons, List.flatten_cons, List.append_assoc]
    by_cases ht : pyStripNonempty l = true
    · rw [if_pos ht, countYumEcho_echoLine l _ (h l (by simp)),
          ih fun x hx => h x (by simp [hx]), List.filter_cons, if_pos ht,
          List.length_cons]
      omega
    · rw [if_neg ht, List.nil_append, ih fun x hx => h x (by simp [hx]),
          List.filter_cons, if_neg ht]

theorem countYumEcho_sourceCmds (subV : Text → Text) (s rest : Text) :
    countYumEcho (yumSourceCmds subV s ++ rest) =
      expectedAppends subV s + countYumEcho rest := by
  rw [yumSourceCmds, expectedAppends]
  by_cases hn : containsNl (subV s) = true
  · rw [if_pos hn, if_pos hn]
    exact countYumEcho_flatten (splitNl (subV s)) rest (splitNl_mem_nlfree _)
  · rw [if_neg hn, if_neg hn,
        countYumEcho_echoLine _ _
          (nlfree_of_not_containsNl _ (Bool.eq_false_iff.2 hn))]

theorem countYumEcho_sources (subV : Text → Text) (sources : List Text) (rest : Text) :
    countYumEcho ((sources.map (yumSourceCmds subV)).flatten ++ rest) =
      (sources.map (expectedAppends subV)).sum + countYumEcho rest := by
  induction sources with
  | nil => simp
  | cons s ss ih =>
    rw [List.map_cons, List.flatten_cons, List.append_assoc,
        countYumEcho_sourceCmds, ih, List.map_cons, List.sum_cons,
        Nat.add_assoc]

theorem yumUpdateBlock_getLast (package_manager update_command : Text) :
    (yumUpdateBlock package_manager update_command).getLast? = some '\n' := by
  rw [yumUpdateBlock, updateBlock]
  split
  · exact List.getLast?_append_of_ne_nil _ (by decide)
  · exact List.getLast?_append_of_ne_nil _ (by decide)

theorem dfHeader_getLast (dist_name base_image now : Text) :
    (dfHeader dist_name base_image now).getLast? = some '\n' := by
  rw [dfHeader]
  exact List.getLast?_append_of_ne_nil _ (by decide)

/-- C6: for a yum- or dnf-kind config, the number of repo-file append
commands in the generated script is the sum over the source lines of one
append per non-empty inner line for a multi-line source and exactly one
append for a single-line source — provided the header, update stage, test
stage and final stage contribute no line shaped like an append command. -/
theorem generate_dockerfile_yum_append_count (dist_name : Text) (cfg : DistConfig)
    (pms : List (Text × PMConfig)) (vars : List (Text × Text)) (now : Text)
    (hpm : cfgPM cfg = strL "yum" ∨ cfgPM cfg = strL "dnf")
    (hh : countYumEcho (dfHeader dist_name (cfgBaseImage cfg) now) = 0)
    (hu : countYumEcho (yumUpdateBlock (cfgPM cfg) (cfgPMC cfg pms).updateCommand) = 0)
    (ht : countYumEcho (yumTestBlock (cfgPM cfg) (substitute_variables vars)
            (cfgTestCmds cfg pms)) = 0)
    (hf : countYumEcho (dfFinal dist_name) = 0) :
    countYumEcho (generate_dockerfile dist_name cfg pms vars now) =
      (cfg.sources.map (expectedAppends (substitute_variables vars))).sum := by
  have hna : cfgPM cfg ≠ strL "apt" := by
    rcases hpm with e | e <;> rw [e] <;> decide
  have hbody : dfBody cfg pms vars =
      yumBody (cfgPM cfg) (substitute_variables vars) cfg.sources
        (cfgPMC cfg pms).updateCommand (cfgTestCmds cfg pms) := by
    rw [dfBody]
    simp only [if_neg hna, if_pos hpm]
  have hfinal : ∀ X : Text, countYumEcho (X ++ dfFinal dist_name) =
      countYumEcho X + countYumEcho (dfFinal dist_name) := by
    intro X
    rw [show dfFinal dist_name =
          '\n' :: (strL "# Final validation\nRUN echo \x27All repository tests passed for " ++
            dist_name ++ strL "\x27\n") from by rw [dfFinal]; rfl,
        countYumEcho_append_cons]
    rw [show countYumEcho
          ('\n' :: (strL "# Final validation\nRUN echo \x27All repository tests passed for " ++
            dist_name ++ strL "\x27\n")) =
        countYumEcho [] +
          countYumEcho
            (strL "# Final validation\nRUN echo \x27All repository tests passed for " ++
              dist_name ++ strL "\x27\n") from
      countYumEcho_append_cons [] _, countYumEcho_nil]
    omega
  rw [generate_dockerfile, List.append_assoc, hbody, yumBody]
  rw [countYumEcho_append _ _ (dfHeader_getLast dist_name (cfgBaseImage cfg) now), hh]
  simp only [List.append_assoc]
  rw [countYumEcho_append _ _ (by decide :
        (strL "# Configure repositories\nRUN rm -f /etc/yum.repos.d/* && \\\n    export releasever=$(rpm -q --qf \x27%\x7bVERSION\x7d\x27 $(rpm -q --whatprovides redhat-release)) && \\\n    export basearch=$(uname -m) && \\\n").getLast? = some '\n'),
      (by decide :
        countYumEcho (strL "# Configure repositories\nRUN rm -f /etc/yum.repos.d/* && \\\n    export releasever=$(rpm -q --qf \x27%\x7bVERSION\x7d\x27 $(rpm -q --whatprovides redhat-release)) && \\\n    export basearch=$(uname -m) && \\\n") = 0)]
  rw [countYumEcho_sources]
  rw [countYumEcho_append _ _ (by decide :
        (strL "    cat /etc/yum.repos.d/mirror-test.repo\n\n").getLast? = some '\n'),
      (by decide : countYumEcho (strL "    cat /etc/yum.repos.d/mirror-test.repo\n\n") = 0)]
  rw [countYumEcho_append _ _ (yumUpdateBlock_getLast _ _), hu]
  rw [hfinal, ht, hf]
  omega

/-- C6 witness: a concrete dnf config with one three-line stanza source
(with an empty inner line, giving 3 appends) and one single-line source
(1 append): 4 appends in total. -/
theorem generate_dockerfile_yum_append_count_witness :
    (cfgPM ⟨some (strL "fedora:39"), none, some (strL "dnf"),
        [strL "[mirror]\nname=Mirror\n\nbaseurl=http://mirror.local/fedora/\x27$releasever\x27/",
         strL "gpgcheck=0"], none⟩ = strL "yum" ∨
     cfgPM ⟨some (strL "fedora:39"), none, some (strL "dnf"),
        [strL "[mirror]\nname=Mirror\n\nbaseurl=http://mirror.local/fedora/\x27$releasever\x27/",
         strL "gpgcheck=0"], none⟩ = strL "dnf") ∧
    countYumEcho (generate_dockerfile (strL "fedora-test")
        ⟨some (strL "fedora:39"), none, some (strL "dnf"),
          [strL "[mirror]\nname=Mirror\n\nbaseurl=http://mirror.local/fedora/\x27$releasever\x27/",
           strL "gpgcheck=0"], none⟩ [] [] (strL "2024-01-01T00:00:00")) =
      ([strL "[mirror]\nname=Mirror\n\nbaseurl=http://mirror.local/fedora/\x27$releasever\x27/",
        strL "gpgcheck=0"].map (expectedAppends (substitute_variables []))).sum ∧
    ([strL "[mirror]\nname=Mirror\n\nbaseurl=http://mirror.local/fedora/\x27$releasever\x27/",
      strL "gpgcheck=0"].map (expectedAppends (substitute_variables []))).sum = 4 :=
  ⟨Or.inr (by decide),
   generate_dockerfile_yum_append_count (strL "fedora-test")
     ⟨some (strL "fedora:39"), none, some (strL "dnf"),
       [strL "[mirror]\nname=Mirror\n\nbaseurl=http://mirror.local/fedora/\x27$releasever\x27/",
        strL "gpgcheck=0"], none⟩ [] [] (strL "2024-01-01T00:00:00")
     (Or.inr (by decide)) (by decide) (by decide) (by decide) (by decide),
   by decide⟩

/-! Result log store, translated from `MirrorTester._log_build` (src/core.py
lines 314-324) and `MirrorTester.get_latest_log` (src/core.py lines 326-370). -/

/-- Decimal digits of a natural number, most significant first, matching
Python `str(n)` for `n >= 0`.  Written with fuel (any fuel above the number
itself is enough) so that it reduces by computation. -/
def natCharsGo (fuel n : Nat) (acc : List Char) : List Char :=
  match fuel with
  | 0 => acc
  | fuel + 1 =>
    if n < 10 then Char.ofNat (48 + n) :: acc
    else natCharsGo fuel (n / 10) (Char.ofNat (48 + n % 10) :: acc)

def natChars (n : Nat) : List Char := natCharsGo (n + 1) n []

/-- Python `str(i)` for an int: canonical decimal, `-` sign for negatives. -/
def intChars (i : Int) : List Char :=
  if i < 0 then '-' :: natChars i.natAbs else natChars i.toNat

/-- Value of one decimal digit character. -/
def digitVal (c : Char) : Option Nat :=
  if '0' ≤ c ∧ c ≤ '9' then some (c.toNat - 48) else none

def parseDigitsGo : Nat → List Char → Option Nat
  | acc, [] => some acc
  | acc, c :: cs =>
    match digitVal c with
    | some d => parseDigitsGo (acc * 10 + d) cs
    | Option.none => Option.none

/-- Python `int(s)` on the canonical integer strings the log writer produces:
an optional sign followed by decimal digits; anything else is a `ValueError`,
modelled as `none`. -/
def pyInt (s : Text) : Option Int :=
  match s with
  | [] => Option.none
  | c :: cs =>
    if c = '-' then
      match parseDigitsGo 0 cs with
      | some n => some (-(n : Int))
      | Option.none => Option.none
    else if c = '+' then
      match parseDigitsGo 0 cs with
      | some n => some ((n : Int))
      | Option.none => Option.none
    else
      match parseDigitsGo 0 (c :: cs) with
      | some n => some ((n : Int))
      | Option.none => Option.none

/-- Python `s.split(sep)` scan for a non-empty separator: the `Nat` argument
counts separator characters still to be consumed after an emitted segment. -/
def splitGo (sep : Text) : Text → Text → Nat → List Text
  | [], acc, _ => [acc.reverse]
  | _ :: cs, acc, Nat.succ k => splitGo sep cs acc k
  | c :: cs, acc, 0 =>
    if sep.isPrefixOf (c :: cs) then acc.reverse :: splitGo sep cs [] (sep.length - 1)
    else splitGo sep cs (c :: acc) 0

/-- Python `s.split(sep)`.  The source only splits on `"=== Build "`, `": "`
and `" ==="`, all non-empty (Python raises on an empty separator). -/
def splitOnL (sep xs : Text) : List Text :=
  if sep = [] then [xs] else splitGo sep xs [] 0

/-- The marker `"=== Build "` written before each block and split on by the
reader. -/
def buildMarker : Text := strL "=== Build "

/-- Python `"=" * 50`, the block terminator line. -/
def eqBar : Text := List.replicate 50 '='

/-- The text `MirrorTester._log_build` appends for one build: marker line
with timestamp, return-code line, `STDOUT:` section, `STDERR:` section,
terminator line. -/
def logBlock (ts : Text) (return_code : Int) (stdout stderr : Text) : Text :=
  strL "\n=== Build " ++ ts ++ strL " ===\n" ++
  strL "Return code: " ++ intChars return_code ++ strL "\n" ++
  strL "STDOUT:\n" ++ stdout ++ strL "\n" ++
  strL "STDERR:\n" ++ stderr ++ strL "\n" ++
  eqBar ++ strL "\n"

/-- `MirrorTester._log_build`: append one block to the log content. -/
def log_build (log ts : Text) (return_code : Int) (stdout stderr : Text) : Text :=
  log ++ logBlock ts return_code stdout stderr

/-- The dictionary `get_latest_log` builds while parsing a block. -/
structure ParsedBuild where
  timestamp : Text
  return_code : Option Int
  stdout : Text
  stderr : Text
  full : Text
deriving DecidableEq

/-- The `current_section` state of the parse loop. -/
inductive Sect
  | none
  | out
  | err
deriving DecidableEq

/-- The line loop of `get_latest_log` (src/core.py lines 354-365): return-code
lines set the return code, `STDOUT:`/`STDERR:` switch the section, the
terminator breaks, and any other line is appended (plus a newline) to the
current section.  A failing `int(...)` or missing `": "` raises, modelled as
the error result the surrounding `except` turns it into. -/
def parseLines : List Text → Sect → ParsedBuild → Except Text ParsedBuild
  | [], _, r => .ok r
  | line :: rest, sect, r =>
    if (strL "Return code:").isPrefixOf line then
      match (splitOnL (strL ": ") line).get? 1 with
      | Option.none => .error (strL "Error reading log file: list index out of range")
      | some rcs =>
        match pyInt rcs with
        | Option.none => .error (strL "Error reading log file: invalid literal for int")
        | some i => parseLines rest sect { r with return_code := some i }
    else if (strL "STDOUT:").isPrefixOf line then parseLines rest Sect.out r
    else if (strL "STDERR:").isPrefixOf line then parseLines rest Sect.err r
    else if eqBar.isPrefixOf line then .ok r
    else
      match sect with
      | Sect.none => parseLines rest sect r
      | Sect.out => parseLines rest sect { r with stdout := r.stdout ++ line ++ ['\n'] }
      | Sect.err => parseLines rest sect { r with stderr := r.stderr ++ line ++ ['\n'] }

/-- `MirrorTester.get_latest_log` on the log file content: split on the build
marker, take the last block, parse its lines. -/
def get_latest_log (content : Text) : Except Text ParsedBuild :=
  let builds := (splitOnL buildMarker content).drop 1
  match builds.getLast? with
  | Option.none => .error (strL "No build logs found")
  | some last_build =>
    let lines := splitNl last_build
    parseLines (lines.drop 1) Sect.none
      { timestamp := (splitOnL (strL " ===") (lines.headD [])).headD [],
        return_code := Option.none, stdout := [], stderr := [],
        full := last_build }

/-- `MirrorTester.get_latest_log` including the missing-file check. -/
def get_latest_log_file (content : Option Text) : Except Text ParsedBuild :=
  match content with
  | Option.none => .error (strL "No logs found for this distribution")
  | some c => get_latest_log c

/-! Lemmas about the decimal serialization and its parse. -/

theorem digitChar_mem (d : Nat) (hd : d < 10) :
    Char.ofNat (48 + d) ∈ strL "0123456789" := by
  interval_cases d <;> decide

theorem natCharsGo_digits (fuel n : Nat) (acc : List Char)
    (hacc : ∀ c ∈ acc, c ∈ strL "0123456789") :
    ∀ c ∈ natCharsGo fuel n acc, c ∈ strL "0123456789" := by
  induction fuel generalizing n acc with
  | zero => simpa [natCharsGo] using hacc
  | succ fuel ih =>
    rw [natCharsGo]
    split
    · intro c hc
      rcases List.mem_cons.1 hc with h1 | h2
      · exact h1 ▸ digitChar_mem n (by assumption)
      · exact hacc c h2
    · refine ih (n / 10) _ ?_
      intro c hc
      rcases List.mem_cons.1 hc with h1 | h2
      · exact h1 ▸ digitChar_mem (n % 10) (Nat.mod_lt n (by omega))
      · exact hacc c h2

theorem natChars_digits (n : Nat) : ∀ c ∈ natChars n, c ∈ strL "0123456789" :=
  natCharsGo_digits (n + 1) n [] (by simp)

theorem natCharsGo_fuel (fuel : Nat) : ∀ (fuel' n : Nat) (acc : List Char),
    n < fuel → n < fuel' → natCharsGo fuel n acc = natCharsGo fuel' n acc := by
  induction fuel with
  | zero => omega
  | succ fuel ih =>
    intro fuel' n acc h h'
    cases fuel' with
    | zero => omega
    | succ fuel' =>
      rw [natCharsGo, natCharsGo]
      split
      · rfl
      · rename_i hn
        have hdiv : n / 10 < n := Nat.div_lt_self (by omega) (by omega)
        exact ih fuel' (n / 10) _ (by omega) (by omega)

theorem natCharsGo_acc (fuel : Nat) : ∀ (n : Nat) (acc : List Char),
    natCharsGo fuel n acc = natCharsGo fuel n [] ++ acc := by
  induction fuel with
  | zero => simp [natCharsGo]
  | succ fuel ih =>
    intro n acc
    rw [natCharsGo, natCharsGo]
    split
    · rfl
    · rw [ih (n / 10) (Char.ofNat (48 + n % 10) :: acc),
          ih (n / 10) [Char.ofNat (48 + n % 10)]]
      simp

theorem natChars_ge10 (n : Nat) (h : 10 ≤ n) :
    natChars n = natChars (n / 10) ++ [Char.ofNat (48 + n % 10)] := by
  have hdiv : n / 10 < n := Nat.div_lt_self (by omega) (by omega)
  rw [natChars, natChars, natCharsGo, if_neg (by omega), natCharsGo_acc]
  congr 1
  exact natCharsGo_fuel n (n / 10 + 1) (n / 10) [] (by omega) (by omega)

theorem natChars_ne_nil (n : Nat) : natChars n ≠ [] := by
  by_cases h : n < 10
  · rw [natChars, natCharsGo, if_pos h]
    simp
  · rw [natChars_ge10 n (by omega)]
    simp

theorem digitVal_digitChar (d : Nat) (hd : d < 10) :
    digitVal (Char.ofNat (48 + d)) = some d := by
  interval_cases d <;> decide

theorem parseDigitsGo_append (xs : List Char) : ∀ (acc : Nat) (ys : List Char),
    parseDigitsGo acc (xs ++ ys) =
      (parseDigitsGo acc xs).bind fun m => parseDigitsGo m ys := by
  induction xs with
  | nil => intro acc ys; rfl
  | cons c cs ih =>
    intro acc ys
    simp only [List.cons_append, parseDigitsGo]
    cases hd : digitVal c with
    | none => simp [hd]
    | some d =>
      simp only [hd]
      exact ih (acc * 10 + d) ys

theorem parseDigitsGo_natChars (n : Nat) :
    parseDigitsGo 0 (natChars n) = some n := by
  induction n using Nat.strong_induction_on with
  | _ n ih =>
    by_cases h : n < 10
    · rw [show natChars n = [Char.ofNat (48 + n)] from by
        rw [natChars, natCharsGo, if_pos h]]
      rw [parseDigitsGo, digitVal_digitChar n h]
      simp [parseDigitsGo]
    · rw [natChars_ge10 n (by omega), parseDigitsGo_append,
          ih (n / 10) (Nat.div_lt_self (by omega) (by omega))]
      simp only [Option.some_bind]
      simp only [parseDigitsGo, digitVal_digitChar (n % 10) (Nat.mod_lt n (by omega))]
      simp
      omega

theorem pyInt_intChars (i : Int) : pyInt (intChars i) = some i := by
  rw [intChars]
  split
  · rename_i hneg
    obtain ⟨c, cs, h⟩ := List.exists_cons_of_ne_nil (natChars_ne_nil i.natAbs)
    rw [pyInt, if_pos rfl, h, ← h, parseDigitsGo_natChars]
    show some (-(i.natAbs : Int)) = some i
    rw [show -(i.natAbs : Int) = i from by omega]
  · rename_i hpos
    obtain ⟨c, cs, h⟩ := List.exists_cons_of_ne_nil (natChars_ne_nil i.toNat)
    have hcd : c ∈ strL "0123456789" := natChars_digits i.toNat c (by rw [h]; simp)
    have hc1 : ¬c = '-' := (by decide : ∀ x ∈ strL "0123456789", ¬x = '-') c hcd
    have hc2 : ¬c = '+' := (by decide : ∀ x ∈ strL "0123456789", ¬x = '+') c hcd
    rw [h, pyInt, if_neg hc1, if_neg hc2, ← h, parseDigitsGo_natChars]
    show some ((i.toNat : Int)) = some i
    rw [Int.toNat_of_nonneg (by omega)]

theorem intChars_mem (i : Int) : ∀ c ∈ intChars i, c ∈ strL "-0123456789" := by
  rw [intChars]
  split
  · intro c hc
    rcases List.mem_cons.1 hc with h1 | h2
    · subst h1; decide
    · exact (by decide : ∀ x ∈ strL "0123456789", x ∈ strL "-0123456789") c
        (natChars_digits _ c h2)
  · intro c hc
    exact (by decide : ∀ x ∈ strL "0123456789", x ∈ strL "-0123456789") c
      (natChars_digits _ c hc)

theorem intChars_ne_nl (i : Int) : ∀ c ∈ intChars i, c ≠ '\n' := fun c hc =>
  (by decide : ∀ x ∈ strL "-0123456789", x ≠ '\n') c (intChars_mem i c hc)

theorem intChars_no_colon (i : Int) : ':' ∉ intChars i := fun hc =>
  (by decide : ':' ∉ strL "-0123456789") (intChars_mem i ':' hc)

/-! Lemmas about the split scan. -/

theorem isPrefixOf_cons_ne (a b : Char) (l m : List Char) (h : ¬a = b) :
    (a :: l).isPrefixOf (b :: m) = false := by
  have hb : (a == b) = false := beq_eq_false_iff_ne.mpr h
  simp [List.isPrefixOf, hb]

theorem occursB_eq_false_of_head_notin (s0 : Char) (srest xs : Text) (h : s0 ∉ xs) :
    occursB (s0 :: srest) xs = false := by
  induction xs with
  | nil => rfl
  | cons c cs ih =>
    have hc : ¬s0 = c := fun e => h (by simp [e])
    rw [occursB, isPrefixOf_cons_ne s0 c _ _ hc,
        ih fun hm => h (List.mem_cons_of_mem c hm)]
    rfl

theorem splitGo_skip (sep : Text) (s : Text) : ∀ (rest acc : Text),
    splitGo sep (s ++ rest) acc s.length = splitGo sep rest acc 0 := by
  induction s with
  | nil => intro rest acc; rfl
  | cons x xs ih =>
    intro rest acc
    rw [List.cons_append, List.length_cons, splitGo]
    exact ih rest acc

theorem splitGo_no_occ (sep : Text) (xs : Text) (h : occursB sep xs = false) :
    ∀ acc : Text, splitGo sep xs acc 0 = [acc.reverse ++ xs] := by
  induction xs with
  | nil => intro acc; simp [splitGo]
  | cons c cs ih =>
    intro acc
    rw [occursB] at h
    have h1 : sep.isPrefixOf (c :: cs) = false := by
      cases hb : sep.isPrefixOf (c :: cs) <;> simp_all
    have h2 : occursB sep cs = false := by
      cases hb : occursB sep cs <;> simp_all
    rw [splitGo, if_neg (by simp [h1]), ih h2 (c :: acc)]
    simp

theorem splitGo_consume (s0 : Char) (srest rest acc : Text) :
    splitGo (s0 :: srest) ((s0 :: srest) ++ rest) acc 0 =
      acc.reverse :: splitGo (s0 :: srest) rest [] 0 := by
  have hp : (s0 :: srest).isPrefixOf (s0 :: (srest ++ rest)) = true := by
    rw [← List.cons_append]
    exact isPrefixOf_append_self _ _
  rw [List.cons_append, splitGo, if_pos hp]
  congr 1
  rw [show (s0 :: srest).length - 1 = srest.length from by simp]
  exact splitGo_skip (s0 :: srest) srest rest []

theorem splitGo_skip_notin (s0 : Char) (srest : Text) (a : Text) (h : s0 ∉ a) :
    ∀ (rest acc : Text),
      splitGo (s0 :: srest) (a ++ rest) acc 0 =
        splitGo (s0 :: srest) rest (a.reverse ++ acc) 0 := by
  induction a with
  | nil => intro rest acc; simp
  | cons c cs ih =>
    intro rest acc
    have hc : ¬s0 = c := fun e => h (by simp [e])
    rw [List.cons_append, splitGo,
        if_neg (by simp [isPrefixOf_cons_ne s0 c _ _ hc]),
        ih (fun hm => h (List.mem_cons_of_mem c hm)) rest (c :: acc)]
    simp

/-! The round-trip analysis of `_log_build` followed by `get_latest_log`. -/

/-- A stdout/stderr line the reading loop treats as plain section content: it
does not look like a return-code line, a section header, or the terminator. -/
def goodBodyLine (l : Text) : Bool :=
  !(strL "Return code:").isPrefixOf l && !(strL "STDOUT:").isPrefixOf l &&
  !(strL "STDERR:").isPrefixOf l && !eqBar.isPrefixOf l

/-- Everything of a block after the `"=== Build "` marker. -/
def afterMarker (ts : Text) (rc : Int) (so se : Text) : Text :=
  ts ++ strL " ===\n" ++ strL "Return code: " ++ intChars rc ++ strL "\n" ++
  strL "STDOUT:\n" ++ so ++ strL "\n" ++ strL "STDERR:\n" ++ se ++ strL "\n" ++
  eqBar ++ strL "\n"

/-- The timestamp field the reader reconstructs from the first block line. -/
def parsedTs (ts : Text) : Text :=
  (splitOnL (strL " ===") (ts ++ strL " ===")).headD []

theorem flatten_splitNl_map (s : Text) :
    ((splitNl s).map (· ++ ['\n'])).flatten = s ++ ['\n'] := by
  induction s with
  | nil => rfl
  | cons c cs ih =>
    by_cases hc : c = '\n'
    · subst hc
      rw [splitNl, if_pos rfl, List.map_cons, List.flatten_cons, ih]
      rfl
    · obtain ⟨m, ms, hm⟩ := List.exists_cons_of_ne_nil (splitNl_ne_nil cs)
      rw [splitNl_cons_of_ne c cs hc m ms hm, List.map_cons, List.flatten_cons]
      rw [hm, List.map_cons, List.flatten_cons] at ih
      simp only [List.cons_append, List.append_assoc, List.singleton_append] at ih ⊢
      rw [ih]

theorem parseLines_body_out (ls : List Text) : ∀ (rest : List Text) (r : ParsedBuild),
    (∀ l ∈ ls, goodBodyLine l = true) →
    parseLines (ls ++ rest) Sect.out r =
      parseLines rest Sect.out
        { r with stdout := r.stdout ++ (ls.map (· ++ ['\n'])).flatten } := by
  induction ls with
  | nil =>
    intro rest r _
    simp
  | cons l ls ih =>
    intro rest r hgood
    have hl := hgood l (by simp)
    simp only [goodBodyLine, Bool.and_eq_true, Bool.not_eq_true'] at hl
    obtain ⟨⟨⟨h1, h2⟩, h3⟩, h4⟩ := hl
    simp only [List.cons_append, parseLines]
    rw [if_neg (by simp [h1]), if_neg (by simp [h2]), if_neg (by simp [h3]),
        if_neg (by simp [h4])]
    simp only [List.append_eq]
    rw [ih rest _ fun x hx => hgood x (by simp [hx])]
    simp [List.append_assoc]

theorem parseLines_body_err (ls : List Text) : ∀ (rest : List Text) (r : ParsedBuild),
    (∀ l ∈ ls, goodBodyLine l = true) →
    parseLines (ls ++ rest) Sect.err r =
      parseLines rest Sect.err
        { r with stderr := r.stderr ++ (ls.map (· ++ ['\n'])).flatten } := by
  induction ls with
  | nil =>
    intro rest r _
    simp
  | cons l ls ih =>
    intro rest r hgood
    have hl := hgood l (by simp)
    simp only [goodBodyLine, Bool.and_eq_true, Bool.not_eq_true'] at hl
    obtain ⟨⟨⟨h1, h2⟩, h3⟩, h4⟩ := hl
    simp only [List.cons_append, parseLines]
    rw [if_neg (by simp [h1]), if_neg (by simp [h2]), if_neg (by simp [h3]),
        if_neg (by simp [h4])]
    simp only [List.append_eq]
    rw [ih rest _ fun x hx => hgood x (by simp [hx])]
    simp [List.append_assoc]

theorem afterMarker_shape (ts : Text) (rc : Int) (so se : Text) :
    afterMarker ts rc so se =
      (ts ++ strL " ===") ++ '\n' :: ((strL "Return code: " ++ intChars rc) ++ '\n' ::
        (strL "STDOUT:" ++ '\n' :: (so ++ '\n' :: (strL "STDERR:" ++ '\n' ::
          (se ++ '\n' :: (eqBar ++ '\n' :: [])))))) := by
  simp only [afterMarker, List.append_assoc]
  rfl

theorem afterMarker_lines (ts : Text) (rc : Int) (so se : Text)
    (hts : ∀ c ∈ ts, c ≠ '\n') :
    splitNl (afterMarker ts rc so se) =
      (ts ++ strL " ===") :: (strL "Return code: " ++ intChars rc) ::
        strL "STDOUT:" :: (splitNl so ++ strL "STDERR:" ::
          (splitNl se ++ [eqBar, []])) := by
  have hts2 : ∀ c ∈ ts ++ strL " ===", c ≠ '\n' := by
    intro c hc
    rcases List.mem_append.1 hc with h | h
    · exact hts c h
    · exact (by decide : ∀ x ∈ strL " ===", x ≠ '\n') c h
  have hrcl : ∀ c ∈ strL "Return code: " ++ intChars rc, c ≠ '\n' := by
    intro c hc
    rcases List.mem_append.1 hc with h | h
    · exact (by decide : ∀ x ∈ strL "Return code: ", x ≠ '\n') c h
    · exact intChars_ne_nl rc c h
  have heq : ∀ c ∈ eqBar, c ≠ '\n' := by
    intro c hc
    rw [eqBar, List.mem_replicate] at hc
    rw [hc.2]
    decide
  rw [afterMarker_shape, splitNl_append_cons, splitNl_append_cons,
      splitNl_append_cons, splitNl_append_cons, splitNl_append_cons,
      splitNl_append_cons, splitNl_append_cons,
      splitNl_eq_single _ hts2, splitNl_eq_single _ hrcl,
      splitNl_eq_single _ (by decide : ∀ c ∈ strL "STDOUT:", c ≠ '\n'),
      splitNl_eq_single _ (by decide : ∀ c ∈ strL "STDERR:", c ≠ '\n'),
      splitNl_eq_single _ heq]
  simp [splitNl]

theorem rcLine_split (rc : Int) :
    splitOnL (strL ": ") (strL "Return code: " ++ intChars rc) =
      [strL "Return code", intChars rc] := by
  rw [splitOnL, if_neg (by decide),
      show strL "Return code: " ++ intChars rc =
        strL "Return code" ++ (strL ": " ++ intChars rc) from rfl,
      show strL ": " = ':' :: strL " " from rfl,
      splitGo_skip_notin ':' (strL " ") (strL "Return code") (by decide),
      splitGo_consume,
      splitGo_no_occ _ _ (occursB_eq_false_of_head_notin ':' _ _ (intChars_no_colon rc))]
  simp

/-- C1 (amended): a Build Record appended to an empty log by `_log_build` and
read back by `get_latest_log` returns the exact return code, but stdout and
stderr each come back with one extra trailing newline appended — provided the
timestamp is a single line, no stdout/stderr line looks like one of the
parser marker lines, and the block after the marker does not itself contain
the `"=== Build "` marker. -/
theorem log_build_roundtrip (ts : Text) (rc : Int) (so se : Text)
    (hts : ∀ c ∈ ts, c ≠ '\n')
    (hso : ∀ l ∈ splitNl so, goodBodyLine l = true)
    (hse : ∀ l ∈ splitNl se, goodBodyLine l = true)
    (hocc : occursB buildMarker (afterMarker ts rc so se) = false) :
    get_latest_log (log_build [] ts rc so se) =
      Except.ok ⟨parsedTs ts, some rc, so ++ ['\n'], se ++ ['\n'],
        afterMarker ts rc so se⟩ := by
  have hcontent : log_build [] ts rc so se =
      '\n' :: (buildMarker ++ afterMarker ts rc so se) := by
    simp only [log_build, List.nil_append, logBlock, afterMarker, buildMarker,
      List.append_assoc]
    rfl
  have hsplit : splitOnL buildMarker (log_build [] ts rc so se) =
      [['\n'], afterMarker ts rc so se] := by
    rw [hcontent, splitOnL, if_neg (by decide),
        show buildMarker = '=' :: strL "== Build " from rfl, splitGo,
        if_neg (by simp [isPrefixOf_cons_ne '=' '\n' _ _ (by decide)]),
        splitGo_consume,
        splitGo_no_occ ('=' :: strL "== Build ") (afterMarker ts rc so se)
          (show occursB ('=' :: strL "== Build ") (afterMarker ts rc so se) = false
            from hocc)]
    simp
  have hpre : (strL "Return code:").isPrefixOf (strL "Return code: " ++ intChars rc)
      = true := by
    rw [show strL "Return code: " ++ intChars rc =
          strL "Return code:" ++ (' ' :: intChars rc) from rfl]
    exact isPrefixOf_append_self _ _
  simp only [get_latest_log]
  rw [hsplit]
  simp only [List.drop_succ_cons, List.drop_zero, List.getLast?_singleton,
    List.headD_cons]
  rw [afterMarker_lines ts rc so se hts]
  simp only [List.headD_cons, List.drop_succ_cons, List.drop_zero]
  simp only [parseLines]
  rw [if_pos hpre, rcLine_split]
  simp only [List.get?_cons_succ, List.get?_cons_zero]
  rw [pyInt_intChars]
  simp only [parseLines]
  rw [if_neg (by decide), if_pos (by decide)]
  rw [parseLines_body_out (splitNl so) _ _ hso, flatten_splitNl_map]
  simp only [parseLines]
  rw [if_neg (by decide), if_neg (by decide), if_pos (by decide)]
  rw [parseLines_body_err (splitNl se) _ _ hse, flatten_splitNl_map]
  simp only [parseLines]
  rw [if_neg (by decide), if_neg (by decide), if_neg (by decide),
      if_pos (by decide)]
  simp [parsedTs]

/-- C1 witness: a concrete record with a negative return code and a two-line
stdout round-trips up to the extra trailing newline. -/
theorem log_build_roundtrip_witness :
    (∀ c ∈ strL "2024-01-01 00:00:00", c ≠ '\n') ∧
    (∀ l ∈ splitNl (strL "line1\nline2"), goodBodyLine l = true) ∧
    (∀ l ∈ splitNl (strL "err msg"), goodBodyLine l = true) ∧
    occursB buildMarker
      (afterMarker (strL "2024-01-01 00:00:00") (-7) (strL "line1\nline2")
        (strL "err msg")) = false ∧
    get_latest_log
        (log_build [] (strL "2024-01-01 00:00:00") (-7) (strL "line1\nline2")
          (strL "err msg")) =
      Except.ok ⟨parsedTs (strL "2024-01-01 00:00:00"), some (-7),
        strL "line1\nline2" ++ ['\n'], strL "err msg" ++ ['\n'],
        afterMarker (strL "2024-01-01 00:00:00") (-7) (strL "line1\nline2")
          (strL "err msg")⟩ :=
  ⟨by decide, by decide, by decide, by decide,
   log_build_roundtrip (strL "2024-01-01 00:00:00") (-7) (strL "line1\nline2")
     (strL "err msg") (by decide) (by decide) (by decide) (by decide)⟩

/-- C1 counterexample: the byte-for-byte claim fails on the record
`(0, "a", "b")` — the reader returns stdout `"a\n"`, not `"a"`. -/
theorem log_build_roundtrip_cex :
    (get_latest_log
        (log_build [] (strL "2024-01-01 00:00:00") 0 (strL "a") (strL "b"))).toOption.map
      ParsedBuild.stdout = some (strL "a\n") ∧
    ¬(get_latest_log
        (log_build [] (strL "2024-01-01 00:00:00") 0 (strL "a") (strL "b"))).toOption.map
      ParsedBuild.stdout = some (strL "a") := by
  constructor
  · decide
  · decide

/-! Build executor, translated from `MirrorTester.test_distribution`
(src/core.py lines 252-297) and the variant in src/mirror-test.py lines
403-497.  The subprocess invocation is abstracted as an outcome parameter:
the build tool completed with a return code and captured output, timed out
(`subprocess.TimeoutExpired`), or raised some other exception. -/

inductive BuildOutcome
  | completed (returncode : Int) (stdout stderr : Text)
  | timedOut
  | raised (msg : Text)
deriving DecidableEq

/-- The `(success, stdout, stderr)` triple `test_distribution` returns. -/
structure RunResult where
  success : Bool
  stdout : Text
  stderr : Text
deriving DecidableEq

/-- `MirrorTester.test_distribution` of src/core.py from the build invocation
on, paired with the log content it leaves behind: the completed path logs the
captured result, the timeout path logs a return-code-1 record whose stderr is
the synthetic `"Build timeout after N seconds"` message, and any other
exception logs a `"Build error: ..."` record. -/
def coreTestDistribution (o : BuildOutcome) (timeout : Nat) (ts log : Text) :
    RunResult × Text :=
  match o with
  | .completed returncode stdout stderr =>
    (⟨decide (returncode = 0), stdout, stderr⟩,
     log_build log ts returncode stdout stderr)
  | .timedOut =>
    (⟨false, [], strL "Build timeout after " ++ natChars timeout ++ strL " seconds"⟩,
     log_build log ts 1 []
       (strL "Build timeout after " ++ natChars timeout ++ strL " seconds"))
  | .raised msg =>
    (⟨false, [], strL "Build error: " ++ msg⟩,
     log_build log ts 1 [] (strL "Build error: " ++ msg))

/-- The outcomes of the src/mirror-test.py variant, whose `try` only catches
`TimeoutExpired`. -/
inductive WebBuildOutcome
  | completed (returncode : Int) (stdout stderr : Text)
  | timedOut
deriving DecidableEq

/-- The per-run log file the src/mirror-test.py variant writes (lines
461-471), with the surrounding metadata as parameters. -/
def webLogFile (dist_name base_image package_manager ts build_cmd : Text)
    (returncode : Int) (dockerfile stdout stderr : Text) : Text :=
  strL "Distribution: " ++ dist_name ++ strL "\n" ++
  strL "Base Image: " ++ base_image ++ strL "\n" ++
  strL "Package Manager: " ++ package_manager ++ strL "\n" ++
  strL "Timestamp: " ++ ts ++ strL "\n" ++
  strL "Build Command: " ++ build_cmd ++ strL "\n" ++
  strL "Return Code: " ++ intChars returncode ++ strL "\n" ++
  strL "\n--- DOCKERFILE ---\n" ++ dockerfile ++ strL "\n" ++
  strL "\n--- BUILD OUTPUT ---\n" ++ stdout ++ strL "\n" ++
  strL "\n--- BUILD ERRORS ---\n" ++ stderr ++ strL "\n"

/-- `test_distribution` of src/mirror-test.py (lines 442-497) from the build
invocation on, over the store of written log files: on `TimeoutExpired` it
returns the failure triple immediately — before the log-writing code — so no
log file is written; on completion it writes a fresh log file. -/
def webTestDistribution (o : WebBuildOutcome)
    (dist_name base_image package_manager ts build_cmd dockerfile : Text)
    (store : List Text) : RunResult × List Text :=
  match o with
  | .timedOut =>
    (⟨false, [], strL "Build process timeout (>10 minutes)"⟩, store)
  | .completed returncode stdout stderr =>
    (⟨decide (returncode = 0), stdout, stderr⟩,
     store ++ [webLogFile dist_name base_image package_manager ts build_cmd
       returncode dockerfile stdout stderr])

/-- C2 (amended, core variant): on timeout `test_distribution` returns a
failure whose stderr mentions the timeout and appends a return-code-1 Build
Record with that stderr; and for every outcome of the invocation a Build
Record is appended.  (The src/mirror-test.py variant violates the claim: see
the counterexample.) -/
theorem coreTestDistribution_timeout_logs (timeout : Nat) (ts log : Text) :
    ((coreTestDistribution BuildOutcome.timedOut timeout ts log).1.success = false ∧
     occursB (strL "timeout")
       (coreTestDistribution BuildOutcome.timedOut timeout ts log).1.stderr = true ∧
     (coreTestDistribution BuildOutcome.timedOut timeout ts log).2 =
       log_build log ts 1 []
         (strL "Build timeout after " ++ natChars timeout ++ strL " seconds")) ∧
    ∀ o : BuildOutcome, ∃ rc stdout stderr,
      (coreTestDistribution o timeout ts log).2 = log_build log ts rc stdout stderr := by
  refine ⟨⟨rfl, ?_, rfl⟩, ?_⟩
  · show occursB (strL "timeout")
      (strL "Build " ++ (strL "timeout" ++
        (strL " after " ++ (natChars timeout ++ strL " seconds")))) = true
    exact occursB_append_right _ _ _ (occursB_prefix_self _ _)
  · intro o
    cases o with
    | completed returncode stdout stderr => exact ⟨returncode, stdout, stderr, rfl⟩
    | timedOut => exact ⟨1, [], _, rfl⟩
    | raised msg => exact ⟨1, [], _, rfl⟩

/-- C2 counterexample: in the src/mirror-test.py variant a timed-out
invocation finishes — returning a failure that mentions the timeout — while
the store of log files is left empty: no Build Record is logged. -/
theorem webTestDistribution_timeout_no_log_cex :
    (webTestDistribution WebBuildOutcome.timedOut (strL "debian") (strL "debian:12")
        (strL "apt") (strL "2024-01-01T00:00:00") (strL "podman build")
        (strL "FROM debian:12") []).2 = [] ∧
    (webTestDistribution WebBuildOutcome.timedOut (strL "debian") (strL "debian:12")
        (strL "apt") (strL "2024-01-01T00:00:00") (strL "podman build")
        (strL "FROM debian:12") []).1.success = false ∧
    occursB (strL "timeout")
      (webTestDistribution WebBuildOutcome.timedOut (strL "debian") (strL "debian:12")
        (strL "apt") (strL "2024-01-01T00:00:00") (strL "podman build")
        (strL "FROM debian:12") []).1.stderr = true := by
  refine ⟨rfl, rfl, ?_⟩
  decide

/-! Latest-marker repointing, translated from src/mirror-test.py lines
473-477: `if os.path.exists(latest_link): os.remove(latest_link)` followed by
`os.symlink(log_file, latest_link)` — two separate filesystem mutations, each
modelled as one atomic step a concurrent reader can observe between. -/

inductive MarkerStep
  | removeMarker
  | symlinkMarker (target : Text)
deriving DecidableEq

/-- The step sequence the code performs, given whether the marker currently
exists. -/
def repointSteps (marker_exists : Bool) (target : Text) : List MarkerStep :=
  (if marker_exists then [MarkerStep.removeMarker] else []) ++
    [MarkerStep.symlinkMarker target]

/-- Effect of one step on the marker state (the target the symlink points at,
or `none` when absent).  `os.symlink` is only reached with the marker absent,
where it atomically creates the link. -/
def stepMarker (marker : Option Text) (s : MarkerStep) : Option Text :=
  match s with
  | MarkerStep.removeMarker => Option.none
  | MarkerStep.symlinkMarker target => some target

/-- Every marker state a concurrent reader can observe during one repoint,
initial and final states included. -/
def observableStates (marker : Option Text) (marker_exists : Bool) (target : Text) :
    List (Option Text) :=
  (repointSteps marker_exists target).scanl stepMarker marker

/-- C8 (amended): the repoint always finishes with the marker pointing at the
new record, and a reader only ever observes the old marker, the new marker,
or no marker at all — never a half-written one.  It is not atomic, though:
with an existing marker the reader can observe the absent-marker state (see
the counterexample). -/
theorem latest_marker_repoint (marker : Option Text) (marker_exists : Bool)
    (target : Text) :
    (observableStates marker marker_exists target).getLast? = some (some target) ∧
    ∀ s ∈ observableStates marker marker_exists target,
      s = marker ∨ s = Option.none ∨ s = some target := by
  cases marker_exists <;>
    simp [observableStates, repointSteps, stepMarker, List.scanl]

/-- C8 counterexample: with an existing marker, the state after the remove
step is an absent marker — a concurrent reader between the two steps observes
neither the old record nor the new one. -/
theorem latest_marker_not_atomic_cex :
    observableStates (some (strL "debian_1.log")) true (strL "debian_2.log") =
      [some (strL "debian_1.log"), Option.none, some (strL "debian_2.log")] ∧
    Option.none ∈ observableStates (some (strL "debian_1.log")) true (strL "debian_2.log") ∧
    Option.none ≠ some (strL "debian_1.log") ∧
    Option.none ≠ some (strL "debian_2.log") := by
  refine ⟨rfl, ?_, ?_, ?_⟩ <;> decide

end MirrorTest
